import Mathlib

/-!
Verification development for the browser-side authentication and chat client
of the azure-langgraph-agent repository.

The embedded code lives in:
  * `src/frontend/lib/auth.ts`      — class `AuthService` (token fetching, caching,
    authenticated fetch with retry-on-401, login URL, logout, auth status);
  * `src/frontend/components/Chat.tsx` — chat component (`sendMessage`,
    `deliverMessage`, render decision);
  * `src/frontend/app/layout.tsx`   — `AuthCallback` page and `handleCallback`.

Network I/O is modelled by passing the backend's reply for each `fetch` call as
an explicit argument (a `FetchOutcome`): a resolved HTTP response carrying a
status and a parsed JSON body, or a rejected promise (network error).  The
mutable fields of the `AuthService` singleton (`tokenStore`, `refreshPromise`)
become an explicit `AuthState` threaded through the functions.  JavaScript
truthiness of string-or-null values (`if (s)`) is modelled by `truthy`:
true exactly for a present, non-empty string.
-/

/-- `response.ok` in the fetch API: status in the inclusive range 200–299. -/
def respOk (status : Nat) : Bool := 200 ≤ status && status ≤ 299

/-- Outcome of one `fetch` call whose JSON body parses to `β`:
either a resolved response with an HTTP status and body, or a rejected
promise (network error, the `catch` path). -/
inductive FetchOutcome (β : Type) where
  | response (status : Nat) (body : β)
  | networkError
deriving DecidableEq

/-- JavaScript truthiness of a string-or-null value: `null` and the empty
string are falsy, every non-empty string is truthy. -/
def truthy : Option String → Bool
  | none => false
  | some s => !(s == "")

/-- `interface TokenData` (auth.ts lines 8–11): exactly the two fields
`access_token` and `id_token`.  No refresh token or downstream-resource token
field exists in the browser-side store. -/
structure TokenData where
  access_token : String
  id_token : String
deriving DecidableEq

/-- `interface AuthTokens` (auth.ts lines 3–6): the auth request headers.
`azureAccessToken` stands for the header name literal `azure-access-token`
and `azureIdToken` for `azure-id-token` (hyphens are not legal in Lean field
names); these are the only two fields. -/
structure AuthTokens where
  azureAccessToken : String
  azureIdToken : String
deriving DecidableEq

/-- The wire body of a 2xx reply from `GET /auth/tokens`.  Besides the two
fields the client reads (`tokens.access_token`, `tokens.id_token`) we let the
body carry an optional `refresh_token` field, so that "a refresh token is
never stored" is visible in the model: `fetchAndStoreTokens` never reads it. -/
structure TokensBody where
  access_token : String
  id_token : String
  refresh_token : Option String
deriving DecidableEq

/-- The mutable state of the `AuthService` instance (auth.ts lines 15–16):
`tokenStore : TokenData | null` and `refreshPromise`.  A pending
`refreshPromise` is modelled by the value the in-flight fetch will settle
with (`some pending`); `none` means no fetch is in flight. -/
structure AuthState where
  tokenStore : Option TokenData
  refreshPromise : Option (Option TokenData)
deriving DecidableEq

/-- `AuthService.fetchAndStoreTokens` (auth.ts lines 19–44), given the
backend's reply to `GET /auth/tokens`.  On `response.ok` it stores
`{access_token, id_token}` taken from the body and returns it; on a non-ok
response or a thrown fetch it nulls the store and returns `null`. -/
def fetchAndStoreTokens (o : FetchOutcome TokensBody) (s : AuthState) :
    Option TokenData × AuthState :=
  match o with
  | .response status body =>
    if respOk status then
      let t : TokenData := { access_token := body.access_token, id_token := body.id_token }
      (some t, { s with tokenStore := some t })
    else
      (none, { s with tokenStore := none })
  | .networkError => (none, { s with tokenStore := none })

/-- `AuthService.getTokens` (auth.ts lines 46–58), sequential semantics.
If a refresh is already pending the call awaits it and returns its settled
value (lines 49–51).  Otherwise it runs `fetchAndStoreTokens` against the
backend reply `o`; the promise is assigned and, after the await, reset to
`null` (lines 54–56), so the net `refreshPromise` is `none`. -/
def getTokens (o : FetchOutcome TokensBody) (s : AuthState) :
    Option TokenData × AuthState :=
  match s.refreshPromise with
  | some pending => (pending, s)
  | none =>
    let r := fetchAndStoreTokens o s
    (r.1, { r.2 with refreshPromise := none })

/-- `AuthService.getAuthHeaders` (auth.ts lines 61–71): `null` when
`getTokens` returned `null`, otherwise the two headers
`azure-access-token := access_token` and `azure-id-token := id_token`. -/
def getAuthHeaders (o : FetchOutcome TokensBody) (s : AuthState) :
    Option AuthTokens × AuthState :=
  let r := getTokens o s
  match r.1 with
  | none => (none, r.2)
  | some t => (some { azureAccessToken := t.access_token, azureIdToken := t.id_token }, r.2)

/-- `AuthService.checkAuthStatus` (auth.ts lines 128–131):
`tokens !== null`. -/
def checkAuthStatus (o : FetchOutcome TokensBody) (s : AuthState) :
    Bool × AuthState :=
  let r := getTokens o s
  (r.1.isSome, r.2)

/-- An HTTP response object as `authenticatedFetch` sees it: its status plus
an opaque identity `rid` distinguishing distinct response objects (so "the
original response is returned" is expressible). -/
structure Response where
  status : Nat
  rid : Nat
deriving DecidableEq

/-- The environment of one `authenticatedFetch` call: the backend replies to,
in order, the initial token fetch (inside the first `getAuthHeaders`), the
main request, the token refetch after a 401, and the retried main request. -/
structure AFEnv where
  tokensResp1 : FetchOutcome TokensBody
  firstResp : Response
  tokensResp2 : FetchOutcome TokensBody
  retryResp : Response
deriving DecidableEq

/-- Result of `authenticatedFetch`: the response it returns, the final
`AuthService` state, and the auth headers attached to each request actually
sent to the target url, in order. -/
structure AFResult where
  resp : Response
  finalState : AuthState
  requests : List (Option AuthTokens)
deriving DecidableEq

/-- `AuthService.authenticatedFetch` (auth.ts lines 74–108).  It attaches the
current auth headers and issues the request; on a 401 it nulls `tokenStore`
and `refreshPromise` (lines 90–91), fetches fresh headers, and — only if
headers were obtained — retries once and returns the retried response;
otherwise the original response is returned unchanged. -/
def authenticatedFetch (env : AFEnv) (s : AuthState) : AFResult :=
  let h1 := getAuthHeaders env.tokensResp1 s
  let response := env.firstResp
  if response.status = 401 then
    let s2 : AuthState := { h1.2 with tokenStore := none, refreshPromise := none }
    let h2 := getAuthHeaders env.tokensResp2 s2
    match h2.1 with
    | some newHeaders =>
      { resp := env.retryResp, finalState := h2.2, requests := [h1.1, some newHeaders] }
    | none =>
      { resp := response, finalState := h2.2, requests := [h1.1] }
  else
    { resp := response, finalState := h1.2, requests := [h1.1] }

/-- The JSON body of a 2xx reply from `GET /auth/login`; the client reads
`data.auth_url`. -/
structure LoginBody where
  auth_url : String
deriving DecidableEq

/-- `AuthService.getAuthUrl` (auth.ts lines 110–126).  On a non-ok response
it throws `Failed to get auth URL: <status>`; the surrounding `catch` logs
and rethrows, so every failure (HTTP or network) propagates as a thrown
error, modelled by `Except.error`. -/
def getAuthUrl (o : FetchOutcome LoginBody) : Except String String :=
  match o with
  | .response status body =>
    if respOk status then .ok body.auth_url
    else .error ("Failed to get auth URL: " ++ toString status)
  | .networkError => .error "fetch rejected"

/-- Outcome of the `fetch` inside `logout`: a resolved response with some
status (no `response.ok` check is made), or a rejected promise. -/
inductive LogoutOutcome where
  | resolved (status : Nat)
  | networkError
deriving DecidableEq

/-- The body of `logout`'s `try` block (auth.ts lines 134–141): await the
fetch, then clear `tokenStore` and `refreshPromise`.  A rejected fetch
throws before the clearing lines run. -/
def logoutBody (o : LogoutOutcome) (s : AuthState) : Except String AuthState :=
  match o with
  | .resolved _ => .ok { s with tokenStore := none, refreshPromise := none }
  | .networkError => .error "fetch rejected"

/-- `AuthService.logout` (auth.ts lines 133–145): the `catch` block only
logs, so a thrown fetch leaves the state as it was and `logout` returns
normally. -/
def logout (o : LogoutOutcome) (s : AuthState) : Except String AuthState :=
  match logoutBody o s with
  | .ok s' => .ok s'
  | .error _ => .ok s

/-- The message sender tags of `Chat.tsx` (line 10): the string literals
`user` and `AAD Agent`. -/
inductive Sender where
  | user
  | agent
deriving DecidableEq

/-- `interface Message` (Chat.tsx lines 7–12); `Date.now()` timestamps are
modelled as natural numbers and `id` keeps its string type
(`Date.now().toString()`). -/
structure Message where
  id : String
  content : String
  sender : Sender
  timestamp : Nat
deriving DecidableEq

/-- The pieces of `Chat` component state that `sendMessage` reads or writes
(Chat.tsx lines 16–23). -/
structure ChatState where
  messages : List Message
  inputMessage : String
  isLoading : Bool
  pendingMessage : String
  shouldSendMessage : Bool
deriving DecidableEq

/-- `sendMessage` (Chat.tsx lines 74–85) at wall-clock time `now`
(`Date.now()`).  The guard `!inputMessage.trim() || isLoading` returns with
no state change; otherwise the user message is appended, the pending message
set, the input cleared and the send flag raised. -/
def sendMessage (now : Nat) (s : ChatState) : ChatState :=
  if s.inputMessage.trim = "" || s.isLoading then s
  else
    let userMessage : Message :=
      { id := toString now, content := s.inputMessage, sender := .user, timestamp := now }
    { s with
      messages := s.messages ++ [userMessage],
      pendingMessage := s.inputMessage,
      inputMessage := "",
      shouldSendMessage := true }

/-- One element of the run endpoint's `messages` array as `deliverMessage`
reads it: its `type` tag and `content`. -/
structure RunMsg where
  type : String
  content : String
deriving DecidableEq

/-- The parsed body of the agent run endpoint's reply.  `messages = none`
models a body whose `messages` field is missing or not an array
(`data.messages && Array.isArray(data.messages)` fails). -/
structure RunBody where
  messages : Option (List RunMsg)
deriving DecidableEq

/-- The `agentContent` extraction of `deliverMessage` (Chat.tsx lines
104–112): filter the messages whose `type` is `ai` and take
`aiMessages[aiMessages.length - 1].content`; otherwise the empty string. -/
def extractAgentContent (data : RunBody) : String :=
  match data.messages with
  | some msgs =>
    let aiMessages := msgs.filter (fun m => m.type == "ai")
    if aiMessages.length > 0 then
      (aiMessages.getD (aiMessages.length - 1) { type := "", content := "" }).content
    else ""
  | none => ""

/-- The success-path tail of `deliverMessage` (Chat.tsx lines 114–126): if
`agentContent` is truthy (non-empty) append it as the agent message,
otherwise append the literal `No response received`. -/
def deliverAgentReply (now : Nat) (data : RunBody) (msgs : List Message) :
    List Message :=
  let agentContent := extractAgentContent data
  if !(agentContent == "") then
    msgs ++ [{ id := toString (now + 1), content := agentContent, sender := .agent, timestamp := now }]
  else
    msgs ++ [{ id := toString (now + 1), content := "No response received", sender := .agent, timestamp := now }]

/-- The two top-level views `Chat` can render (Chat.tsx lines 163–228): the
sign-in entry point (`Welcome … Sign in with Microsoft`) or the chat
interface. -/
inductive ChatView where
  | signIn
  | chatUI
deriving DecidableEq

/-- The render decision of `Chat` (Chat.tsx line 163): the sign-in entry
point exactly when `isAuthenticated` is false. -/
def renderChat (isAuthenticated : Bool) : ChatView :=
  if isAuthenticated then .chatUI else .signIn

/-- The query parameters the `AuthCallback` page reads from the callback URL
(layout.tsx lines 49–51): `searchParams.get` yields `null` (`none`) for an
absent parameter and the (possibly empty) string value otherwise. -/
structure CallbackParams where
  code : Option String
  error : Option String
  scope : Option String
deriving DecidableEq

/-- The code-exchange request `handleCallback` sends to
`/api/auth/callback` (layout.tsx lines 32–42), structurally: the `code`
query parameter and the `scopes` query parameter when it was appended. -/
structure CbRequest where
  code : String
  scopes : Option String
deriving DecidableEq

/-- `handleCallback` (layout.tsx lines 32–42): the url always carries
`code`; `scopes` is appended only when `scopes` is truthy
(`if (scopes) url += …`). -/
def handleCallback (code : String) (scopes : Option String) : CbRequest :=
  { code := code, scopes := if truthy scopes then scopes else none }

/-- Outcome of the exchange request as the `AuthCallback` effect sees it:
a resolved response (status and statusText) or a rejected promise carrying
an error message. -/
inductive CbResponse where
  | resolved (status : Nat) (statusText : String)
  | thrown (msg : String)
deriving DecidableEq

/-- The `useEffect` body of `AuthCallback` (layout.tsx lines 53–72): the
request it makes (if any) and the status string it displays.  A truthy
`error` parameter short-circuits with a failure status and no request;
`code && !error` sends the exchange request and sets the status from the
response; otherwise the missing-parameters status is shown. -/
def authCallbackEffect (p : CallbackParams) (resp : CbResponse) :
    Option CbRequest × String :=
  if truthy p.error then
    (none, "Authentication failed: " ++ p.error.getD "")
  else if truthy p.code then
    let req := handleCallback (p.code.getD "") p.scope
    match resp with
    | .resolved status statusText =>
      if respOk status then (some req, "Authentication successful! Redirecting...")
      else (some req, "Authentication failed: " ++ toString status ++ " - " ++ statusText)
    | .thrown msg => (some req, "Authentication error: " ++ msg)
  else
    (none, "Missing authentication parameters")

/-!
Event-loop trace model of concurrent `getTokens` calls (auth.ts lines
46–58).  JavaScript is single-threaded: the synchronous prefix of
`getTokens` — reading `refreshPromise` on line 49, and assigning it on line
54 — runs atomically; suspensions happen only at the `await`s.  A `call c`
event is caller `c` running that prefix: it either joins the already pending
promise (lines 49–51) or starts `fetchAndStoreTokens` — one request to
`GET /auth/tokens` — and becomes its first awaiter (line 54).  A `resolve r`
event is the in-flight fetch settling with `r`: every awaiter's continuation
resumes with the same settled value, and line 56 resets `refreshPromise` to
`null`.
-/

/-- State of the trace model: the pending promise (tagged by which fetch it
belongs to), how many fetches (backend requests) have been started, who is
awaiting the pending promise, and the values already returned to callers. -/
structure GTTrace where
  refreshPromise : Option Nat
  fetchesStarted : Nat
  waiters : List Nat
  returned : List (Nat × Option TokenData)
deriving DecidableEq

/-- Events of the trace model: a `getTokens` invocation by caller `c`, or
the settlement of the in-flight fetch with value `r`. -/
inductive GTEvent where
  | call (c : Nat)
  | resolve (r : Option TokenData)
deriving DecidableEq

/-- One step of the event-loop trace model. -/
def gtStep (s : GTTrace) (e : GTEvent) : GTTrace :=
  match e with
  | .call c =>
    match s.refreshPromise with
    | some _ => { s with waiters := s.waiters ++ [c] }
    | none =>
      { s with
        refreshPromise := some s.fetchesStarted,
        fetchesStarted := s.fetchesStarted + 1,
        waiters := s.waiters ++ [c] }
  | .resolve r =>
    match s.refreshPromise with
    | some _ =>
      { s with
        refreshPromise := none,
        waiters := [],
        returned := s.returned ++ s.waiters.map (fun c => (c, r)) }
    | none => s

/-- Run a list of events from a state. -/
def gtRun (s : GTTrace) (es : List GTEvent) : GTTrace :=
  es.foldl gtStep s

/-- The quiescent initial state: no fetch pending, none started. -/
def gtInit : GTTrace :=
  { refreshPromise := none, fetchesStarted := 0, waiters := [], returned := [] }

/-- "Non-2xx response or network error": the condition of claim C4, as a
predicate on the backend's reply to `GET /auth/tokens`. -/
def fetchFailed : FetchOutcome TokensBody → Bool
  | .response status _ => !respOk status
  | .networkError => true

/-- The last element of a list, via positional indexing as the source does
(`aiMessages[aiMessages.length - 1]`), agrees with `List.getLast?`. -/
theorem getD_length_sub_one (l : List α) (d : α) (h : l ≠ []) :
    l.getD (l.length - 1) d = (l.getLast?).getD d := by
  induction l with
  | nil => exact absurd rfl h
  | cons a t ih =>
    cases t with
    | nil => rfl
    | cons b t' =>
      have : (a :: b :: t').getD ((a :: b :: t').length - 1) d
          = (b :: t').getD ((b :: t').length - 1) d := by
        simp [List.getD]
      rw [this, ih (by simp), List.getLast?_cons_cons]

/-- C10: `getAuthHeaders()` returns `null` if and only if `getTokens()`
returned `null`; otherwise it returns a record with exactly the two header
names `azure-access-token` and `azure-id-token` (the two fields of
`AuthTokens`), bound respectively to the `access_token` and `id_token` of
the fetched token set. -/
theorem getAuthHeaders_mirrors_getTokens (o : FetchOutcome TokensBody) (s : AuthState) :
    (getAuthHeaders o s).1 =
      (getTokens o s).1.map
        (fun t => { azureAccessToken := t.access_token, azureIdToken := t.id_token }) := by
  cases h : (getTokens o s).1 with
  | none => simp [getAuthHeaders, h]
  | some t => simp [getAuthHeaders, h]

theorem extractAgentContent_eq_getLast (ms : List RunMsg) :
    extractAgentContent { messages := some ms } =
      ((ms.filter (fun m => m.type == "ai")).getLast?.map RunMsg.content).getD "" := by
  unfold extractAgentContent
  cases hai : ms.filter (fun m => m.type == "ai") with
  | nil => simp [hai]
  | cons a t =>
    have hne : (a :: t) ≠ ([] : List RunMsg) := by simp
    simp only [hai]
    rw [if_pos (by simp : (a :: t).length > 0)]
    rw [getD_length_sub_one (a :: t) { type := "", content := "" } hne]
    cases hl : (a :: t).getLast? with
    | none => simp [List.getLast?_eq_none_iff] at hl
    | some m => simp

/-- C8: the chat appends as the agent's reply the content of the last
element of type `ai` in the `messages` array; if the body has no `messages`
array, the array has no `ai` element, or that content is empty, the literal
`No response received` is appended instead. -/
theorem deliverAgentReply_appends_last_ai (now : Nat) (data : RunBody) (msgs : List Message) :
    deliverAgentReply now data msgs =
      msgs ++ [{ id := toString (now + 1),
                 content :=
                   match data.messages with
                   | none => "No response received"
                   | some ms =>
                     match (ms.filter (fun m => m.type == "ai")).getLast? with
                     | none => "No response received"
                     | some m => if m.content = "" then "No response received" else m.content,
                 sender := .agent, timestamp := now }] := by
  obtain ⟨oms⟩ := data
  cases oms with
  | none => rfl
  | some ms =>
    unfold deliverAgentReply
    rw [extractAgentContent_eq_getLast]
    cases hl : (ms.filter (fun m => m.type == "ai")).getLast? with
    | none => simp [hl]
    | some m => by_cases hc : m.content = "" <;> simp [hl, hc]

/-- C9: when the input is empty or whitespace-only (`inputMessage.trim` is
empty) or a previous message is still being processed (`isLoading`),
`sendMessage` leaves the whole component state — message list, pending
message, input field and send flag — unchanged. -/
theorem sendMessage_noop_on_guard (now : Nat) (s : ChatState)
    (h : s.inputMessage.trim = "" ∨ s.isLoading = true) :
    sendMessage now s = s := by
  unfold sendMessage
  rcases h with h | h <;> simp [h]

/-- Witness for C9 at a concrete state with a message in flight. -/
theorem sendMessage_noop_on_guard_witness :
    sendMessage 5 { messages := [], inputMessage := "hi", isLoading := true,
                    pendingMessage := "", shouldSendMessage := false } =
      { messages := [], inputMessage := "hi", isLoading := true,
        pendingMessage := "", shouldSendMessage := false } :=
  sendMessage_noop_on_guard 5 _ (Or.inr rfl)

/-- C3: for every 2xx response from `GET /auth/tokens`, `getTokens()`
returns (and stores) a `TokenData` — a record with exactly the two fields
`access_token` and `id_token` — taken from the response body.  Any
`refresh_token` the body may carry is not read: the result depends only on
the body's `access_token` and `id_token`, and `TokenData` has no further
field, so no refresh or downstream-resource token is stored or returned. -/
theorem getTokens_success_stores_two_fields (status : Nat) (body : TokensBody) (s : AuthState)
    (hp : s.refreshPromise = none) (hok : respOk status = true) :
    getTokens (.response status body) s =
      (some { access_token := body.access_token, id_token := body.id_token },
       { tokenStore := some { access_token := body.access_token, id_token := body.id_token },
         refreshPromise := none }) := by
  unfold getTokens fetchAndStoreTokens
  rw [hp]
  simp [hok]

/-- Witness for C3: a 200 reply whose body also carries a refresh token;
only the two token fields are kept. -/
theorem getTokens_success_stores_two_fields_witness :
    getTokens (.response 200 { access_token := "at", id_token := "it", refresh_token := some "rt" })
        { tokenStore := none, refreshPromise := none } =
      (some { access_token := "at", id_token := "it" },
       { tokenStore := some { access_token := "at", id_token := "it" },
         refreshPromise := none }) :=
  getTokens_success_stores_two_fields 200
    { access_token := "at", id_token := "it", refresh_token := some "rt" }
    { tokenStore := none, refreshPromise := none } rfl (by decide)

/-- C4: for every non-2xx response or network error from `GET /auth/tokens`,
`getTokens()` returns `null` with the token store nulled, `checkAuthStatus()`
returns `false`, and `Chat` then renders the sign-in entry point. -/
theorem getTokens_failure_renders_signin (o : FetchOutcome TokensBody) (s : AuthState)
    (hp : s.refreshPromise = none) (hf : fetchFailed o = true) :
    getTokens o s = (none, { tokenStore := none, refreshPromise := none }) ∧
    (checkAuthStatus o s).1 = false ∧
    renderChat (checkAuthStatus o s).1 = ChatView.signIn := by
  have hg : getTokens o s = (none, { tokenStore := none, refreshPromise := none }) := by
    unfold getTokens fetchAndStoreTokens
    rw [hp]
    cases o with
    | response status body =>
      unfold fetchFailed at hf
      simp only [Bool.not_eq_true'] at hf
      simp [hf]
    | networkError => simp
  refine ⟨hg, ?_, ?_⟩ <;> simp [checkAuthStatus, renderChat, hg]

/-- Witness for C4 at a concrete 401 reply. -/
theorem getTokens_failure_renders_signin_witness :
    getTokens (.response 401 { access_token := "", id_token := "", refresh_token := none })
        { tokenStore := some { access_token := "stale", id_token := "stale" },
          refreshPromise := none } =
      (none, { tokenStore := none, refreshPromise := none }) ∧
    (checkAuthStatus (.response 401 { access_token := "", id_token := "", refresh_token := none })
        { tokenStore := some { access_token := "stale", id_token := "stale" },
          refreshPromise := none }).1 = false ∧
    renderChat (checkAuthStatus
        (.response 401 { access_token := "", id_token := "", refresh_token := none })
        { tokenStore := some { access_token := "stale", id_token := "stale" },
          refreshPromise := none }).1 = ChatView.signIn :=
  getTokens_failure_renders_signin _ _ rfl (by decide)

/-- C7: `getAuthUrl()` returns the `auth_url` field of the body on every 2xx
response, and throws on every non-2xx response and on every failed request. -/
theorem getAuthUrl_ok_iff_2xx (status : Nat) (body : LoginBody) :
    (respOk status = true → getAuthUrl (.response status body) = .ok body.auth_url) ∧
    (respOk status = false →
        getAuthUrl (.response status body) =
          .error ("Failed to get auth URL: " ++ toString status)) ∧
    (getAuthUrl (FetchOutcome.networkError)).isOk = false := by
  refine ⟨fun h => ?_, fun h => ?_, rfl⟩ <;> simp [getAuthUrl, h]

/-- Witness for C7 at a 200 and (via the last conjunct) a failed request. -/
theorem getAuthUrl_ok_iff_2xx_witness :
    getAuthUrl (.response 200 { auth_url := "https://login.example" }) =
      .ok "https://login.example" ∧
    getAuthUrl (.response 503 { auth_url := "https://login.example" }) =
      .error ("Failed to get auth URL: " ++ toString 503) :=
  ⟨(getAuthUrl_ok_iff_2xx 200 { auth_url := "https://login.example" }).1 (by decide),
   (getAuthUrl_ok_iff_2xx 503 { auth_url := "https://login.example" }).2.1 (by decide)⟩

/-- Counterexample to C6 as stated: when the `GET /auth/logout` request does
not succeed because the fetch rejects (network error), the `catch` block of
`logout` (auth.ts lines 142–144) only logs, so the in-memory token store is
NOT cleared: with a token in the store, `logout` returns with the store
still holding that token. -/
theorem logout_counterexample :
    logout .networkError
        { tokenStore := some { access_token := "at", id_token := "it" },
          refreshPromise := none } =
      .ok { tokenStore := some { access_token := "at", id_token := "it" },
            refreshPromise := none } ∧
    (some { access_token := "at", id_token := "it" } : Option TokenData) ≠ none := by
  exact ⟨rfl, by decide⟩

/-- C6 (amended): `logout()` never throws; when the logout fetch resolves
(with any HTTP status) the token store and any pending refresh promise are
cleared, but when the fetch rejects (network error) the state is left
unchanged. -/
theorem logout_clears_on_resolved (o : LogoutOutcome) (s : AuthState) :
    (logout o s).isOk = true ∧
    (∀ status, o = .resolved status →
        logout o s = .ok { tokenStore := none, refreshPromise := none }) ∧
    (o = .networkError → logout o s = .ok s) := by
  cases o with
  | resolved status =>
    refine ⟨rfl, fun st h => ?_, fun h => by cases h⟩
    simp [logout, logoutBody]
  | networkError =>
    refine ⟨rfl, ?_, fun _ => rfl⟩
    intro st h
    cases h

/-- Witness for C6 (amended): a resolved logout with status 500 still clears
the store and the pending promise. -/
theorem logout_clears_on_resolved_witness :
    logout (.resolved 500)
        { tokenStore := some { access_token := "at", id_token := "it" },
          refreshPromise := some none } =
      .ok { tokenStore := none, refreshPromise := none } :=
  (logout_clears_on_resolved (.resolved 500)
    { tokenStore := some { access_token := "at", id_token := "it" },
      refreshPromise := some none }).2.1 500 rfl

/-- A truthy string-or-null value is in particular present. -/
theorem truthy_isSome {x : Option String} (h : truthy x = true) : x.isSome = true := by
  cases x with
  | none => exact absurd h (by decide)
  | some s => rfl

/-- Counterexample to C5 as stated: a callback URL carrying a present but
empty `scope` parameter (`…&scope=`).  `searchParams.get` yields the empty
string, which is falsy, so `handleCallback` does not append the `scopes`
query parameter even though the callback URL carried a `scope` parameter —
refuting the claimed "if and only if". -/
theorem authCallback_counterexample :
    (({ code := some "abc", error := none, scope := some "" } : CallbackParams)).scope.isSome
        = true ∧
    authCallbackEffect { code := some "abc", error := none, scope := some "" }
        (.resolved 200 "OK") =
      (some { code := "abc", scopes := none },
       "Authentication successful! Redirecting...") := by
  exact ⟨rfl, by decide⟩

/-- C5 (amended): on a callback URL whose `error` parameter is truthy
(present and non-empty) the page makes no exchange request and displays a
failure status; the exchange request is made exactly when the `code`
parameter is truthy and the `error` parameter is not; and the `scopes` query
parameter is appended to that request if and only if the callback URL
carried a truthy (non-empty) `scope` parameter. -/
theorem authCallback_request_conditions (p : CallbackParams) (resp : CbResponse) :
    (truthy p.error = true →
        (authCallbackEffect p resp).1 = none ∧
        (authCallbackEffect p resp).2 = "Authentication failed: " ++ p.error.getD "") ∧
    ((authCallbackEffect p resp).1.isSome = true ↔
        (truthy p.error = false ∧ truthy p.code = true)) ∧
    (∀ req, (authCallbackEffect p resp).1 = some req →
        req.code = p.code.getD "" ∧
        (req.scopes.isSome = true ↔ truthy p.scope = true) ∧
        (truthy p.scope = true → req.scopes = p.scope)) := by
  unfold authCallbackEffect handleCallback
  by_cases he : truthy p.error = true
  · simp [he]
  · rw [Bool.not_eq_true] at he
    by_cases hc : truthy p.code = true
    · by_cases hs : truthy p.scope = true
      · cases resp with
        | resolved status statusText =>
          by_cases hok : respOk status = true <;>
            simp [he, hc, hs, hok, truthy_isSome hs]
        | thrown msg => simp [he, hc, hs, truthy_isSome hs]
      · rw [Bool.not_eq_true] at hs
        cases resp with
        | resolved status statusText =>
          by_cases hok : respOk status = true <;>
            simp [he, hc, hs, hok]
        | thrown msg => simp [he, hc, hs]
    · rw [Bool.not_eq_true] at hc
      simp [he, hc]

/-- Witness for C5 (amended): a denied-consent callback
(`?error=access_denied`) makes no request and shows the failure status. -/
theorem authCallback_request_conditions_witness :
    (authCallbackEffect
        { code := none, error := some "access_denied", scope := none }
        (.resolved 200 "OK")).1 = none ∧
    (authCallbackEffect
        { code := none, error := some "access_denied", scope := none }
        (.resolved 200 "OK")).2 = "Authentication failed: " ++ "access_denied" :=
  (authCallback_request_conditions
    { code := none, error := some "access_denied", scope := none }
    (.resolved 200 "OK")).1 (by decide)

/-- C2: if the first response is a 401, `authenticatedFetch` nulls the
cached tokens and any pending refresh (the refetch runs on the cleared state
`⟨none, none⟩`, so it really contacts the backend), and, when fresh headers
are obtained, retries exactly once with them and returns the retried
response; when they are not, the original 401 response is returned with no
retry.  Any other status is returned as-is: one request, no retry, and the
state is the one left by the ordinary header fetch — no invalidation. -/
theorem authenticatedFetch_retry_on_401 (env : AFEnv) (s : AuthState) :
    (env.firstResp.status ≠ 401 →
        authenticatedFetch env s =
          { resp := env.firstResp,
            finalState := (getAuthHeaders env.tokensResp1 s).2,
            requests := [(getAuthHeaders env.tokensResp1 s).1] }) ∧
    (env.firstResp.status = 401 →
        (∀ nh,
            (getAuthHeaders env.tokensResp2
              { tokenStore := none, refreshPromise := none }).1 = some nh →
            authenticatedFetch env s =
              { resp := env.retryResp,
                finalState := (getAuthHeaders env.tokensResp2
                  { tokenStore := none, refreshPromise := none }).2,
                requests := [(getAuthHeaders env.tokensResp1 s).1, some nh] }) ∧
        ((getAuthHeaders env.tokensResp2
            { tokenStore := none, refreshPromise := none }).1 = none →
            authenticatedFetch env s =
              { resp := env.firstResp,
                finalState := (getAuthHeaders env.tokensResp2
                  { tokenStore := none, refreshPromise := none }).2,
                requests := [(getAuthHeaders env.tokensResp1 s).1] })) := by
  unfold authenticatedFetch
  by_cases h : env.firstResp.status = 401
  · refine ⟨fun hne => absurd h hne, fun _ => ⟨?_, ?_⟩⟩
    · intro nh hnh
      simp [h, hnh]
    · intro hnone
      simp [h, hnone]
  · refine ⟨fun _ => by simp [h], fun h401 => absurd h401 h⟩

/-- Witness for C2: a 401 first response followed by a successful token
refetch; the retried response is returned and the second request carries the
fresh headers. -/
theorem authenticatedFetch_retry_on_401_witness :
    authenticatedFetch
        { tokensResp1 := FetchOutcome.networkError,
          firstResp := { status := 401, rid := 0 },
          tokensResp2 :=
            .response 200 { access_token := "at", id_token := "it", refresh_token := none },
          retryResp := { status := 200, rid := 1 } }
        { tokenStore := none, refreshPromise := none } =
      { resp := { status := 200, rid := 1 },
        finalState := { tokenStore := some { access_token := "at", id_token := "it" },
                        refreshPromise := none },
        requests := [none, some { azureAccessToken := "at", azureIdToken := "it" }] } :=
  ((authenticatedFetch_retry_on_401
      { tokensResp1 := FetchOutcome.networkError,
        firstResp := { status := 401, rid := 0 },
        tokensResp2 :=
          .response 200 { access_token := "at", id_token := "it", refresh_token := none },
        retryResp := { status := 200, rid := 1 } }
      { tokenStore := none, refreshPromise := none }).2 rfl).1
    { azureAccessToken := "at", azureIdToken := "it" } (by decide)

/-- Invariant of the event-loop model: while a fetch is in flight
(`refreshPromise` pending), any run of further `getTokens` calls starts no
new fetch and only appends the callers to the pending promise's waiters. -/
theorem gtRun_calls_while_inflight (cs : List Nat) (s : GTTrace) (f : Nat)
    (h : s.refreshPromise = some f) :
    gtRun s (cs.map GTEvent.call) = { s with waiters := s.waiters ++ cs } := by
  induction cs generalizing s with
  | nil => simp [gtRun]
  | cons c cs ih =>
    have h1 : gtRun s (GTEvent.call c :: cs.map GTEvent.call)
        = gtRun (gtStep s (.call c)) (cs.map GTEvent.call) := rfl
    have hstep : gtStep s (.call c) = { s with waiters := s.waiters ++ [c] } := by
      simp [gtStep, h]
    rw [List.map_cons, h1, hstep, ih { s with waiters := s.waiters ++ [c] } (by simp [h])]
    simp

/-- C1: in any schedule where one `getTokens` call arrives at the quiescent
service and any number of further calls arrive while its fetch is still in
flight, exactly one request is made to the backend `/auth/tokens` endpoint,
and when the fetch settles with `r` every caller in the schedule receives
that same `r` — the identical token set or the identical failure (`none`). -/
theorem getTokens_single_flight (cs : List Nat) (r : Option TokenData)
    (hne : cs ≠ []) :
    (gtStep (gtRun gtInit (cs.map GTEvent.call)) (GTEvent.resolve r)).fetchesStarted = 1 ∧
    ∀ c ∈ cs,
      (c, r) ∈ (gtStep (gtRun gtInit (cs.map GTEvent.call)) (GTEvent.resolve r)).returned := by
  cases cs with
  | nil => exact absurd rfl hne
  | cons c0 cs' =>
    have h1 : gtRun gtInit ((c0 :: cs').map GTEvent.call)
        = gtRun { refreshPromise := some 0, fetchesStarted := 1,
                  waiters := [c0], returned := [] } (cs'.map GTEvent.call) := rfl
    rw [h1, gtRun_calls_while_inflight cs' _ 0 rfl]
    refine ⟨rfl, ?_⟩
    intro c hc
    simp only [gtStep, List.nil_append]
    exact List.mem_map_of_mem (fun c => (c, r)) (by simpa using hc)

/-- Witness for C1: callers 7 and 8 arrive during one in-flight fetch that
settles with a failure (`none`); one fetch total, and caller 8 receives that
same failure. -/
theorem getTokens_single_flight_witness :
    (gtStep (gtRun gtInit ([7, 8].map GTEvent.call)) (GTEvent.resolve none)).fetchesStarted = 1 ∧
    (8, (none : Option TokenData)) ∈
      (gtStep (gtRun gtInit ([7, 8].map GTEvent.call)) (GTEvent.resolve none)).returned :=
  ⟨(getTokens_single_flight [7, 8] none (by decide)).1,
   (getTokens_single_flight [7, 8] none (by decide)).2 8 (by decide)⟩
